import Mathlib

/-
Verification development for the modern-C++ sample-code repository
(chenyouwei/moderncppsamplecode).  Each itemN.cxx file is an independent
example program with its own main.  The definitions below are shallow
embeddings, transcribed from the source files; theorems at the end of the
file settle the claims about those files.

Conventions:
  - C++ int is modelled as Lean Int restricted to the 32-bit range where
    overflow matters (see Item37.incInt).
  - Fallible library operations (a constructor that throws) return Except.
  - Loops whose termination is in question are fuel-indexed; a result of
    none means the loop did not finish within the given fuel.
-/

namespace MCpp

/-! ## item18.cxx: the factory function makeInvestment (claim C10)

Transcribed from src/item18.cxx lines 26-72.  The Investment hierarchy has
three leaf classes; makeInvestment starts from a null unique_ptr and runs an
if / else-if chain whose conditions are all the literal constant true. -/

namespace Item18

/-- Dynamic type of the object owned by the unique_ptr returned by
item18::makeInvestment: the leaf classes of the Investment hierarchy. -/
inductive Investment
| stock
| bond
| realEstate
deriving DecidableEq

/-- item18::makeInvestment (src/item18.cxx lines 56-72).  The returned
unique_ptr is modelled by an Option carrying the dynamic type of the owned
object; none is the null pointer.  Stock, Bond and RealEstate have no
constructor parameters, so the forwarded argument pack is necessarily empty
and the function takes no arguments here. -/
def makeInvestment : Option Investment :=
  -- std::unique_ptr<Investment, decltype(delInvmt)> pInv(nullptr, delInvmt);
  let pInv : Option Investment := none
  if true then
    some Investment.stock             -- pInv.reset(new Stock(...));
  else if true then
    some Investment.bond              -- pInv.reset(new Bond(...));
  else if true then
    some Investment.realEstate        -- pInv.reset(new RealEstate(...));
  else
    pInv

end Item18

/-! ## item20.cxx: weak_ptr expiry and bad_weak_ptr (claims C1, C2)

The control block of the single Widget allocation in item20's main is
modelled by its strong reference count; the operations below transcribe the
C++ standard library contract of std::shared_ptr / std::weak_ptr that the
main exercises (src/item20.cxx lines 224-255). -/

namespace Item20

/-- Control block of a shared Widget allocation: its strong reference
count.  The pointed-to Widget is alive exactly while the count is
positive. -/
structure CtrlBlock where
  strong : Nat
deriving DecidableEq

/-- std::make_shared<Widget>(): a fresh allocation with strong count 1. -/
def makeShared : CtrlBlock := { strong := 1 }

/-- Constructing std::weak_ptr<Widget> wpw(spw): the weak pointer observes
the same control block and does not change the strong count. -/
def weakFrom (cb : CtrlBlock) : CtrlBlock := cb

/-- spw = nullptr on the owning shared_ptr: releases one strong
reference. -/
def resetNull (cb : CtrlBlock) : CtrlBlock := { strong := cb.strong - 1 }

/-- wpw.expired(): true exactly when the strong count has reached 0. -/
def expired (cb : CtrlBlock) : Bool := cb.strong = 0

/-- wpw.lock(): null when expired, otherwise a new owning shared_ptr
(strong count incremented).  The returned Option models the returned
shared_ptr, none being null. -/
def lock (cb : CtrlBlock) : Option CtrlBlock :=
  if expired cb then none else some { strong := cb.strong + 1 }

/-- std::shared_ptr<Widget> spw3(wpw): throws std::bad_weak_ptr when the
weak pointer is expired, otherwise yields a new owning shared_ptr.  The
error payload is the what() message of std::bad_weak_ptr. -/
def sharedFromWeak (cb : CtrlBlock) : Except String CtrlBlock :=
  if expired cb then Except.error "bad_weak_ptr"
  else Except.ok { strong := cb.strong + 1 }

/-- Observable outcome of item20's main. -/
structure MainTrace where
  expiredAfterReset : Bool
  output : List String
  spw1 : Option CtrlBlock
  spw2 : Option CtrlBlock
  caughtBadWeakPtr : Bool
  retCode : Int
deriving DecidableEq

/-- main of src/item20.cxx (lines 224-255), step by step. -/
def mainItem20 : MainTrace :=
  let cb0 := makeShared                  -- auto spw = std::make_shared<Widget>();
  let cb1 := weakFrom cb0                -- std::weak_ptr<Widget> wpw(spw);
  let cb2 := resetNull cb1               -- spw = nullptr;
  -- if (wpw.expired()) { std::cout << "wpw has expired" << '\n'; }
  let out1 := if expired cb2 then ["wpw has expired"] else []
  let spw1 := lock cb2                   -- std::shared_ptr<Widget> spw1 = wpw.lock();
  let spw2 := lock cb2                   -- auto spw2 = wpw.lock();
  -- try { std::shared_ptr<Widget> spw3(wpw); } catch (const std::bad_weak_ptr& e) ...
  match sharedFromWeak cb2 with
  | Except.error msg =>
      { expiredAfterReset := expired cb2
        output := out1 ++ [msg]          -- std::cout << e.what() << '\n';
        spw1 := spw1
        spw2 := spw2
        caughtBadWeakPtr := true
        retCode := 0 }
  | Except.ok _ =>
      { expiredAfterReset := expired cb2
        output := out1
        spw1 := spw1
        spw2 := spw2
        caughtBadWeakPtr := false
        retCode := 0 }

end Item20

/-! ## item37.cxx: ThreadRAII and doWork (claims C3, C4)

Transcribed from src/item37.cxx lines 75-132.  std::thread is modelled by
its joinability; the worker loop of doWork runs over C++ int, modelled as
Int over the 32-bit range with wraparound increment (signed overflow in the
source is undefined behaviour; two's-complement wraparound is the modelled
concretisation, and the non-termination result below only uses that the
incremented value stays in the 32-bit range). -/

namespace Item37

/-- Largest value of C++ int (32 bits). -/
def intMax : Int := 2 ^ 31 - 1

/-- Smallest value of C++ int (32 bits). -/
def intMin : Int := -(2 ^ 31)

/-- The increment ++i on a 32-bit int, with wraparound at intMax. -/
def incInt (i : Int) : Int := if i = intMax then intMin else i + 1

/-- A std::thread object, modelled by whether it is joinable. -/
structure Thread where
  joinable : Bool
deriving DecidableEq

/-- item37::ThreadRAII::DtorAction (src/item37.cxx line 80). -/
inductive DtorAction
| join
| detach
deriving DecidableEq

/-- What the ThreadRAII destructor did to a joinable thread. -/
inductive DtorOutcome
| joined
| detached
deriving DecidableEq

/-- item37::ThreadRAII (src/item37.cxx lines 78-104): holds the action to
take in the destructor and the wrapped std::thread. -/
structure ThreadRAII where
  action : DtorAction
  t : Thread
deriving DecidableEq

/-- ThreadRAII constructor: ThreadRAII(std::thread&& t, DtorAction a). -/
def mkThreadRAII (t : Thread) (a : DtorAction) : ThreadRAII :=
  { action := a, t := t }

/-- ThreadRAII destructor (src/item37.cxx lines 85-94): if the thread is
joinable, join it when action is DtorAction::join, detach it otherwise;
do nothing when it is not joinable.  Returns the state of the contained
thread when the std::thread member destructor runs, and what was done. -/
def dtor (r : ThreadRAII) : Thread × Option DtorOutcome :=
  if r.t.joinable then
    match r.action with
    | DtorAction.join => ({ joinable := false }, some DtorOutcome.joined)
    | DtorAction.detach => ({ joinable := false }, some DtorOutcome.detached)
  else
    (r.t, none)

/-- The outcome the destructor must produce for a joinable thread, per the
declared action. -/
def actionOutcome : DtorAction → DtorOutcome
| DtorAction.join => DtorOutcome.joined
| DtorAction.detach => DtorOutcome.detached

/-- std::thread member function get: std::thread& get() { return t; }. -/
def get (r : ThreadRAII) : Thread := r.t

/-- Defaulted move constructor ThreadRAII(ThreadRAII&&) = default:
memberwise move.  Returns (new object, moved-from source); a moved-from
std::thread is not joinable. -/
def moveCtor (src : ThreadRAII) : ThreadRAII × ThreadRAII :=
  ({ action := src.action, t := src.t },
   { action := src.action, t := { joinable := false } })

/-- Defaulted move assignment operator=(ThreadRAII&&) = default:
memberwise move assignment.  std::thread move assignment onto a thread that
is still joinable calls std::terminate; none models that.  Otherwise
returns (assigned target, moved-from source). -/
def moveAssign (dst src : ThreadRAII) : Option (ThreadRAII × ThreadRAII) :=
  if dst.t.joinable then none
  else some ({ action := src.action, t := src.t },
             { action := src.action, t := { joinable := false } })

/-- The std::thread destructor calls std::terminate exactly when the thread
is still joinable. -/
def threadDtorTerminates (t : Thread) : Bool := t.joinable

/-- Whether destroying a ThreadRAII object ends in std::terminate: the
contained std::thread member destructor runs on the thread state left by
the ThreadRAII destructor body. -/
def raiiDtorTerminates (r : ThreadRAII) : Bool :=
  threadDtorTerminates (dtor r).1

/-- t.join() on a std::thread: runs to completion and leaves the thread
unjoinable; join on an unjoinable thread throws (none). -/
def joinThread (t : Thread) : Option Thread :=
  if t.joinable then some { joinable := false } else none

/-- The worker-thread loop of item37::doWork (src/item37.cxx lines
111-115): for (auto i = 0; i <= maxVal; ++i) { if (filter(i))
goodVals.push_back(i); }.  Fuel-indexed; none means the loop did not
finish within the given fuel. -/
def workerLoop (filter : Int → Bool) (maxVal : Int) :
    Nat → Int → List Int → Option (List Int)
| 0, _, _ => none
| fuel + 1, i, acc =>
    if i ≤ maxVal then
      workerLoop filter maxVal fuel (incInt i)
        (if filter i then acc ++ [i] else acc)
    else
      some acc

/-- Observable outcome of a completed call to item37::doWork. -/
structure DoWorkResult where
  returned : Bool
  goodVals : List Int
  threadJoinableAtReturn : Bool
  dtorOutcomeAfterReturn : Option DtorOutcome
deriving DecidableEq

/-- item37::doWork (src/item37.cxx lines 108-129).  The worker thread body
runs to completion at the join point (sequential interleaving).  The
ThreadRAII destructor runs when doWork returns; dtorOutcomeAfterReturn
records what it did then. -/
def doWork (fuel : Nat) (filter : Int → Bool) (maxVal : Int) :
    Option DoWorkResult :=
  -- ThreadRAII t(std::thread([..]{ for ... }), ThreadRAII::DtorAction::join);
  let raii := mkThreadRAII { joinable := true } DtorAction.join
  match workerLoop filter maxVal fuel 0 [] with
  | none => none
  | some goodVals =>
      -- if (true) { t.get().join(); return true; }
      match joinThread (get raii) with
      | none => none
      | some t2 =>
          some { returned := true
                 goodVals := goodVals
                 threadJoinableAtReturn := t2.joinable
                 dtorOutcomeAfterReturn := (dtor { action := raii.action, t := t2 }).2 }

/-- doWork finishes for some fuel bound on the worker loop. -/
def doWorkTerminates (filter : Int → Bool) (maxVal : Int) : Prop :=
  ∃ fuel r, doWork fuel filter maxVal = some r

/-- The integers 0, 1, ..., maxVal in increasing order. -/
def upTo (maxVal : Int) : List Int :=
  (List.range (maxVal.toNat + 1)).map (fun k : Nat => (k : Int))

/-- The integers i, i+1, ..., i+n-1 in increasing order. -/
def seqFrom (i : Int) (n : Nat) : List Int :=
  (List.range n).map (fun k : Nat => i + (k : Int))

end Item37

/-! ## item39.cxx and item40.cxx: the repeated ThreadRAII copies (claim C5)

src/item39.cxx lines 83-109 and src/item40.cxx lines 76-102 repeat the
class item37::ThreadRAII verbatim.  Each copy is transcribed separately
from its own file; the equivalence theorem compares them. -/

namespace Item39

/-- A std::thread object, modelled by whether it is joinable. -/
structure Thread where
  joinable : Bool
deriving DecidableEq

/-- ThreadRAII::DtorAction as repeated in src/item39.cxx line 85. -/
inductive DtorAction
| join
| detach
deriving DecidableEq

/-- What the ThreadRAII destructor did to a joinable thread. -/
inductive DtorOutcome
| joined
| detached
deriving DecidableEq

/-- item37::ThreadRAII as repeated in src/item39.cxx lines 83-109. -/
structure ThreadRAII where
  action : DtorAction
  t : Thread
deriving DecidableEq

/-- ThreadRAII constructor (src/item39.cxx lines 87-88). -/
def mkThreadRAII (t : Thread) (a : DtorAction) : ThreadRAII :=
  { action := a, t := t }

/-- ThreadRAII destructor (src/item39.cxx lines 90-99). -/
def dtor (r : ThreadRAII) : Thread × Option DtorOutcome :=
  if r.t.joinable then
    match r.action with
    | DtorAction.join => ({ joinable := false }, some DtorOutcome.joined)
    | DtorAction.detach => ({ joinable := false }, some DtorOutcome.detached)
  else
    (r.t, none)

/-- std::thread& get() (src/item39.cxx line 104). -/
def get (r : ThreadRAII) : Thread := r.t

/-- Defaulted move constructor (src/item39.cxx line 101). -/
def moveCtor (src : ThreadRAII) : ThreadRAII × ThreadRAII :=
  ({ action := src.action, t := src.t },
   { action := src.action, t := { joinable := false } })

/-- Defaulted move assignment (src/item39.cxx line 102). -/
def moveAssign (dst src : ThreadRAII) : Option (ThreadRAII × ThreadRAII) :=
  if dst.t.joinable then none
  else some ({ action := src.action, t := src.t },
             { action := src.action, t := { joinable := false } })

end Item39

namespace Item40

/-- A std::thread object, modelled by whether it is joinable. -/
structure Thread where
  joinable : Bool
deriving DecidableEq

/-- ThreadRAII::DtorAction as repeated in src/item40.cxx line 78. -/
inductive DtorAction
| join
| detach
deriving DecidableEq

/-- What the ThreadRAII destructor did to a joinable thread. -/
inductive DtorOutcome
| joined
| detached
deriving DecidableEq

/-- item37::ThreadRAII as repeated in src/item40.cxx lines 76-102. -/
structure ThreadRAII where
  action : DtorAction
  t : Thread
deriving DecidableEq

/-- ThreadRAII constructor (src/item40.cxx lines 80-81). -/
def mkThreadRAII (t : Thread) (a : DtorAction) : ThreadRAII :=
  { action := a, t := t }

/-- ThreadRAII destructor (src/item40.cxx lines 83-92). -/
def dtor (r : ThreadRAII) : Thread × Option DtorOutcome :=
  if r.t.joinable then
    match r.action with
    | DtorAction.join => ({ joinable := false }, some DtorOutcome.joined)
    | DtorAction.detach => ({ joinable := false }, some DtorOutcome.detached)
  else
    (r.t, none)

/-- std::thread& get() (src/item40.cxx line 97). -/
def get (r : ThreadRAII) : Thread := r.t

/-- Defaulted move constructor (src/item40.cxx line 94). -/
def moveCtor (src : ThreadRAII) : ThreadRAII × ThreadRAII :=
  ({ action := src.action, t := src.t },
   { action := src.action, t := { joinable := false } })

/-- Defaulted move assignment (src/item40.cxx line 95). -/
def moveAssign (dst src : ThreadRAII) : Option (ThreadRAII × ThreadRAII) :=
  if dst.t.joinable then none
  else some ({ action := src.action, t := src.t },
             { action := src.action, t := { joinable := false } })

end Item40

/-! Field-wise translations between the three transcriptions, used to state
that the copies are behaviourally equal. -/

/-- Translate a thread state from the item37 copy to the item39 copy. -/
def thrTo39 (t : Item37.Thread) : Item39.Thread := { joinable := t.joinable }

/-- Translate a thread state from the item37 copy to the item40 copy. -/
def thrTo40 (t : Item37.Thread) : Item40.Thread := { joinable := t.joinable }

/-- Translate a destructor action from the item37 copy to the item39 copy. -/
def actTo39 : Item37.DtorAction → Item39.DtorAction
| Item37.DtorAction.join => Item39.DtorAction.join
| Item37.DtorAction.detach => Item39.DtorAction.detach

/-- Translate a destructor action from the item37 copy to the item40 copy. -/
def actTo40 : Item37.DtorAction → Item40.DtorAction
| Item37.DtorAction.join => Item40.DtorAction.join
| Item37.DtorAction.detach => Item40.DtorAction.detach

/-- Translate a destructor outcome from the item37 copy to the item39 copy. -/
def outTo39 : Item37.DtorOutcome → Item39.DtorOutcome
| Item37.DtorOutcome.joined => Item39.DtorOutcome.joined
| Item37.DtorOutcome.detached => Item39.DtorOutcome.detached

/-- Translate a destructor outcome from the item37 copy to the item40 copy. -/
def outTo40 : Item37.DtorOutcome → Item40.DtorOutcome
| Item37.DtorOutcome.joined => Item40.DtorOutcome.joined
| Item37.DtorOutcome.detached => Item40.DtorOutcome.detached

/-- Translate a ThreadRAII object from the item37 copy to the item39 copy. -/
def raiiTo39 (r : Item37.ThreadRAII) : Item39.ThreadRAII :=
  { action := actTo39 r.action, t := thrTo39 r.t }

/-- Translate a ThreadRAII object from the item37 copy to the item40 copy. -/
def raiiTo40 (r : Item37.ThreadRAII) : Item40.ThreadRAII :=
  { action := actTo40 r.action, t := thrTo40 r.t }

/-! ## item36.cxx: the default launch policy of std::async (claim C9)

Transcribed from src/item36.cxx lines 75-101.  Under the default launch
policy the scheduler may run f deferred or asynchronously; that choice is
the parameter of the model.  The task f sleeps one second and returns, so
an asynchronously launched future becomes ready after finitely many
100ms polls. -/

namespace Item36

/-- std::future_status as returned by fut.wait_for. -/
inductive FutureStatus
| deferred
| timeout
| ready
deriving DecidableEq

/-- What the scheduler chose for std::async(f) under the default launch
policy: either the task was deferred, or it runs asynchronously and its
future is ready from the readyAfter-th wait_for call on. -/
inductive LaunchOutcome
| deferredRun
| asyncRun (readyAfter : Nat)
deriving DecidableEq

/-- fut.wait_for at call number c (the initial wait_for(0s) is call 0, the
loop calls are 1, 2, ...).  A deferred task always reports deferred; an
asynchronous task reports ready from call readyAfter on and timeout
before. -/
def waitFor : LaunchOutcome → Nat → FutureStatus
| LaunchOutcome.deferredRun, _ => FutureStatus.deferred
| LaunchOutcome.asyncRun n, c =>
    if n ≤ c then FutureStatus.ready else FutureStatus.timeout

/-- The polling loop while (fut.wait_for(100ms) != std::future_status::
ready) {} (src/item36.cxx lines 92-96), fuel-indexed; returns the call
number at which ready was observed, none if the fuel ran out first. -/
def pollLoop (o : LaunchOutcome) : Nat → Nat → Option Nat
| 0, _ => none
| fuel + 1, calls =>
    match waitFor o (calls + 1) with
    | FutureStatus.ready => some (calls + 1)
    | _ => pollLoop o fuel (calls + 1)

/-- Observable outcome of item36's main. -/
structure MainRun where
  tookDeferredBranch : Bool
  polls : Nat
  terminated : Bool
deriving DecidableEq

/-- main of src/item36.cxx lines 75-101: auto fut = std::async(f); if
(fut.wait_for(0s) == std::future_status::deferred) skip the loop,
otherwise poll wait_for(100ms) until ready. -/
def mainItem36 (o : LaunchOutcome) (fuel : Nat) : Option MainRun :=
  if waitFor o 0 = FutureStatus.deferred then
    some { tookDeferredBranch := true, polls := 0, terminated := true }
  else
    match pollLoop o fuel 0 with
    | some polls =>
        some { tookDeferredBranch := false, polls := polls, terminated := true }
    | none => none

/-- Fuel sufficient for the polling loop of each launch outcome. -/
def fuelFor : LaunchOutcome → Nat
| LaunchOutcome.deferredRun => 0
| LaunchOutcome.asyncRun n => n + 1

end Item36

/-! ## The repository as a whole (claims C6, C7, C8)

One entry per example file.  mainEffects lists the externally observable
effectful statements reachable from the main of the file, in program
order, one entry per statement (a statement executed more than once
appears once); the tag names what the statement prints.  The entries are
transcribed from the source: none of the 32 files contains any file,
network or state-persisting operation, so every entry is a console
write. -/

namespace Repo

/-- Kinds of externally observable effect an example program could
perform. -/
inductive Effect
| consoleWrite (tag : String)
| fileRead (path : String)
| fileWrite (path : String)
| networkOpen (endpoint : String)
| persistState (what : String)
deriving DecidableEq

/-- Whether an effect is a write of text to the console. -/
def Effect.isConsoleWrite : Effect → Bool
| Effect.consoleWrite _ => true
| _ => false

/-- One example source file: its name, whether it defines a main entry
point, and the effectful statements reachable from that main. -/
structure ExampleFile where
  name : String
  definesMain : Bool
  mainEffects : List Effect
deriving DecidableEq

/-- item1.cxx: main calls the printing helper item1::f fourteen times (ten
output statements per call, listed once) and prints two arraySize
values. -/
def item1cxx : ExampleFile :=
  { name := "item1.cxx", definesMain := true
    mainEffects :=
      [Effect.consoleWrite "T Type:", Effect.consoleWrite "Reference:",
       Effect.consoleWrite "Const:", Effect.consoleWrite "Lvalue Reference:",
       Effect.consoleWrite "Rvalue Reference:",
       Effect.consoleWrite "ParamType Type:", Effect.consoleWrite "Reference:",
       Effect.consoleWrite "Const:", Effect.consoleWrite "Lvalue Reference:",
       Effect.consoleWrite "Rvalue Reference:",
       Effect.consoleWrite "arraySize(name)", Effect.consoleWrite "arraySize(arr)"] }

/-- item2.cxx: main only builds a std::vector; the printing helper
item1::f is never called, so main reaches no output statement. -/
def item2cxx : ExampleFile :=
  { name := "item2.cxx", definesMain := true, mainEffects := [] }

/-- item3.cxx: main prints a[1]. -/
def item3cxx : ExampleFile :=
  { name := "item3.cxx", definesMain := true
    mainEffects := [Effect.consoleWrite "a[1]"] }

/-- item4.cxx: main prints two typeid names, then calls item4::f through
f(&vw[0]) (vw holds one Widget, so the branch is taken); f prints four
lines: the typeid names and the type_id_with_cvr pretty names of T and
param (item4.cxx lines 121-127). -/
def item4cxx : ExampleFile :=
  { name := "item4.cxx", definesMain := true
    mainEffects :=
      [Effect.consoleWrite "typeid(x).name()", Effect.consoleWrite "typeid(y).name()",
       Effect.consoleWrite "T = typeid(T).name()",
       Effect.consoleWrite "param = typeid(param).name()",
       Effect.consoleWrite "T = type_id_with_cvr<T>().pretty_name()",
       Effect.consoleWrite "param = type_id_with_cvr<decltype(param)>().pretty_name()"] }

/-- item5.cxx: the file contains no output statement at all. -/
def item5cxx : ExampleFile :=
  { name := "item5.cxx", definesMain := true, mainEffects := [] }

/-- item6.cxx: the file contains no output statement at all. -/
def item6cxx : ExampleFile :=
  { name := "item6.cxx", definesMain := true, mainEffects := [] }

/-- item7.cxx: the file contains no output statement at all. -/
def item7cxx : ExampleFile :=
  { name := "item7.cxx", definesMain := true, mainEffects := [] }

/-- item8.cxx: main calls f(nullptr), which prints, then prints result3. -/
def item8cxx : ExampleFile :=
  { name := "item8.cxx", definesMain := true
    mainEffects :=
      [Effect.consoleWrite "f(void*) called", Effect.consoleWrite "result3"] }

/-- item9.cxx: main only declares two list objects; the output statement in
the copied item8 namespace is never reached. -/
def item9cxx : ExampleFile :=
  { name := "item9.cxx", definesMain := true, mainEffects := [] }

/-- item12.cxx: main calls doWork through a Base pointer; the Derived
override prints. -/
def item12cxx : ExampleFile :=
  { name := "item12.cxx", definesMain := true
    mainEffects := [Effect.consoleWrite "doWork() in Derived class"] }

/-- item13.cxx: main only inserts into two vectors; no output statement is
reached. -/
def item13cxx : ExampleFile :=
  { name := "item13.cxx", definesMain := true, mainEffects := [] }

/-- item15.cxx: main prints reflectedMid.xValue(). -/
def item15cxx : ExampleFile :=
  { name := "item15.cxx", definesMain := true
    mainEffects := [Effect.consoleWrite "reflectedMid.xValue()"] }

/-- item18.cxx: main calls makeInvestment twice and prints nothing; the
file contains no output statement at all. -/
def item18cxx : ExampleFile :=
  { name := "item18.cxx", definesMain := true, mainEffects := [] }

/-- item19.cxx: main is empty apart from a using-directive; the file
contains no output statement at all. -/
def item19cxx : ExampleFile :=
  { name := "item19.cxx", definesMain := true, mainEffects := [] }

/-- item20.cxx: main prints the expiry message and the what() message of
the caught std::bad_weak_ptr (both shown to be reached, see the Item20
theorems). -/
def item20cxx : ExampleFile :=
  { name := "item20.cxx", definesMain := true
    mainEffects :=
      [Effect.consoleWrite "wpw has expired", Effect.consoleWrite "e.what()"] }

/-- item22.cxx: main is an empty scope; the file contains no output
statement at all. -/
def item22cxx : ExampleFile :=
  { name := "item22.cxx", definesMain := true, mainEffects := [] }

/-- item23.cxx: main calls logAndProcess on an lvalue and an rvalue (each
process overload prints) and then prints s and w.gets(). -/
def item23cxx : ExampleFile :=
  { name := "item23.cxx", definesMain := true
    mainEffects :=
      [Effect.consoleWrite "Called lvalue process",
       Effect.consoleWrite "Called rvalue process",
       Effect.consoleWrite "s", Effect.consoleWrite "w.gets()"] }

/-- item24.cxx: main returns 0 immediately. -/
def item24cxx : ExampleFile :=
  { name := "item24.cxx", definesMain := true, mainEffects := [] }

/-- item25.cxx: main returns 0 immediately. -/
def item25cxx : ExampleFile :=
  { name := "item25.cxx", definesMain := true, mainEffects := [] }

/-- item26.cxx: main calls both logAndAdd overloads (each prints) and
constructs Person objects through the printing forwarding constructor. -/
def item26cxx : ExampleFile :=
  { name := "item26.cxx", definesMain := true
    mainEffects :=
      [Effect.consoleWrite "Universal logAnddAdd Called",
       Effect.consoleWrite "Int logAndAdd Called",
       Effect.consoleWrite "univeral called"] }

/-- item28.cxx: main returns 0 immediately. -/
def item28cxx : ExampleFile :=
  { name := "item28.cxx", definesMain := true, mainEffects := [] }

/-- item30.cxx: main calls the f and fwd overloads, whose bodies are all
empty; no output statement is reached. -/
def item30cxx : ExampleFile :=
  { name := "item30.cxx", definesMain := true, mainEffects := [] }

/-- item31.cxx: main prints filters[1](31321); workWithContainer prints
when its all_of condition holds. -/
def item31cxx : ExampleFile :=
  { name := "item31.cxx", definesMain := true
    mainEffects :=
      [Effect.consoleWrite "filters[1](31321)",
       Effect.consoleWrite "all statisfied"] }

/-- item32.cxx: main builds two closures and never invokes a printing
function; no output statement is reached. -/
def item32cxx : ExampleFile :=
  { name := "item32.cxx", definesMain := true, mainEffects := [] }

/-- item34.cxx: main prints betweenL(10) and betweenB(10); the PolyWidget
calls print nothing. -/
def item34cxx : ExampleFile :=
  { name := "item34.cxx", definesMain := true
    mainEffects :=
      [Effect.consoleWrite "betweenL(10)", Effect.consoleWrite "betweenB(10)"] }

/-- item35.cxx: the file contains no output statement at all. -/
def item35cxx : ExampleFile :=
  { name := "item35.cxx", definesMain := true, mainEffects := [] }

/-- item36.cxx: the file contains no output statement at all. -/
def item36cxx : ExampleFile :=
  { name := "item36.cxx", definesMain := true, mainEffects := [] }

/-- item37.cxx: the file contains no output statement at all. -/
def item37cxx : ExampleFile :=
  { name := "item37.cxx", definesMain := true, mainEffects := [] }

/-- item39.cxx: main runs detectFlag and reactFlag on two threads;
reactFlag prints after its condition-variable wait returns. -/
def item39cxx : ExampleFile :=
  { name := "item39.cxx", definesMain := true
    mainEffects := [Effect.consoleWrite "flag has set to true"] }

/-- item40.cxx: main prints the atomic ai and the volatile vi. -/
def item40cxx : ExampleFile :=
  { name := "item40.cxx", definesMain := true
    mainEffects := [Effect.consoleWrite "ai", Effect.consoleWrite "vi"] }

/-- item41.cxx: main calls addName twice, which prints. -/
def item41cxx : ExampleFile :=
  { name := "item41.cxx", definesMain := true
    mainEffects := [Effect.consoleWrite "3"] }

/-- item42.cxx: main only performs container insertions; the output
statement in the copied item41 namespace is never reached. -/
def item42cxx : ExampleFile :=
  { name := "item42.cxx", definesMain := true, mainEffects := [] }

/-- The 32 example files of the repository, by ascending item number. -/
def allFiles : List ExampleFile :=
  [item1cxx, item2cxx, item3cxx, item4cxx, item5cxx, item6cxx, item7cxx,
   item8cxx, item9cxx, item12cxx, item13cxx, item15cxx, item18cxx,
   item19cxx, item20cxx, item22cxx, item23cxx, item24cxx, item25cxx,
   item26cxx, item28cxx, item30cxx, item31cxx, item32cxx, item34cxx,
   item35cxx, item36cxx, item37cxx, item39cxx, item40cxx, item41cxx,
   item42cxx]

/-- The names of the source files present in the repository. -/
def repoFilenames : List String := allFiles.map ExampleFile.name

/-- The names of the files whose main reaches at least one output
statement. -/
def printingNames : List String :=
  ["item1.cxx", "item3.cxx", "item4.cxx", "item8.cxx", "item12.cxx",
   "item15.cxx", "item20.cxx", "item23.cxx", "item26.cxx", "item31.cxx",
   "item34.cxx", "item39.cxx", "item40.cxx", "item41.cxx"]

/-- Concurrency-related facts of one of the Item 35-40 files: the
namespaces it declares and which concurrency primitives appear in its
active (non-commented) code. -/
structure ConcurrencyFile where
  filename : String
  namespaces : List String
  usesStdThread : Bool
  usesStdAsync : Bool
  usesCondVar : Bool
  usesStdAtomic : Bool
deriving DecidableEq

/-- item35.cxx: constructs a std::thread and calls std::async. -/
def item35Info : ConcurrencyFile :=
  { filename := "item35.cxx", namespaces := ["item35"]
    usesStdThread := true, usesStdAsync := true
    usesCondVar := false, usesStdAtomic := false }

/-- item36.cxx: calls std::async; no std::thread object, condition
variable or atomic. -/
def item36Info : ConcurrencyFile :=
  { filename := "item36.cxx", namespaces := ["item35", "item36"]
    usesStdThread := false, usesStdAsync := true
    usesCondVar := false, usesStdAtomic := false }

/-- item37.cxx: std::thread inside ThreadRAII and doWork; std::async in
the copied reallyAsync. -/
def item37Info : ConcurrencyFile :=
  { filename := "item37.cxx", namespaces := ["item35", "item36", "item37"]
    usesStdThread := true, usesStdAsync := true
    usesCondVar := false, usesStdAtomic := false }

/-- item39.cxx: std::thread, std::async (copied reallyAsync) and a
std::condition_variable; the std::atomic flag is commented out. -/
def item39Info : ConcurrencyFile :=
  { filename := "item39.cxx"
    namespaces := ["item35", "item36", "item37", "item38", "item39"]
    usesStdThread := true, usesStdAsync := true
    usesCondVar := true, usesStdAtomic := false }

/-- item40.cxx: std::atomic<int> in main, plus the copied item36, item37
and item39 namespaces (std::thread, std::async, condition variable). -/
def item40Info : ConcurrencyFile :=
  { filename := "item40.cxx"
    namespaces := ["item35", "item36", "item37", "item38", "item39", "item40"]
    usesStdThread := true, usesStdAsync := true
    usesCondVar := true, usesStdAtomic := true }

/-- The concurrency item files present in the repository. -/
def concurrencyFiles : List ConcurrencyFile :=
  [item35Info, item36Info, item37Info, item39Info, item40Info]

end Repo

end MCpp

/-! ## Theorems -/

namespace MCpp

/-- C10: item18::makeInvestment always returns a non-null pointer owning a
Stock: the first branch condition is the literal true, so the Bond and
RealEstate branches are unreachable and the result is never null. -/
theorem c10_makeInvestment_stock :
    Item18.makeInvestment = some Item18.Investment.stock ∧
    Item18.makeInvestment ≠ none ∧
    Item18.makeInvestment ≠ some Item18.Investment.bond ∧
    Item18.makeInvestment ≠ some Item18.Investment.realEstate := by
  refine ⟨rfl, ?_, ?_, ?_⟩ <;> simp [Item18.makeInvestment]

/-- C1: in item20's main, after spw = nullptr releases the last owning
shared_ptr, wpw.expired() is true, the program prints "wpw has expired",
and both subsequent wpw.lock() calls return null shared_ptrs. -/
theorem c1_item20_weakptr_expired :
    Item20.mainItem20.expiredAfterReset = true ∧
    "wpw has expired" ∈ Item20.mainItem20.output ∧
    Item20.mainItem20.spw1 = none ∧
    Item20.mainItem20.spw2 = none := by
  refine ⟨rfl, ?_, rfl, rfl⟩
  simp [Item20.mainItem20, Item20.makeShared, Item20.weakFrom, Item20.resetNull,
        Item20.expired, Item20.lock, Item20.sharedFromWeak]

/-- C2: constructing a shared_ptr from the weak_ptr throws std::bad_weak_ptr
exactly when the weak_ptr is expired; in item20's main the try/catch catches
that exception, the what() message is printed, and main still returns 0. -/
theorem c2_item20_bad_weak_ptr :
    (∀ cb : Item20.CtrlBlock,
        (Item20.sharedFromWeak cb).toOption = none ↔ Item20.expired cb = true) ∧
    Item20.mainItem20.caughtBadWeakPtr = true ∧
    "bad_weak_ptr" ∈ Item20.mainItem20.output ∧
    Item20.mainItem20.retCode = 0 := by
  refine ⟨?_, rfl, ?_, rfl⟩
  · intro cb
    by_cases h : Item20.expired cb = true <;>
      simp [Item20.sharedFromWeak, h, Except.toOption]
  · simp [Item20.mainItem20, Item20.makeShared, Item20.weakFrom, Item20.resetNull,
          Item20.expired, Item20.lock, Item20.sharedFromWeak]

/-- With maxVal = intMax every 32-bit value of i satisfies the loop
condition i <= maxVal, so the worker loop of doWork never exits, whatever
the fuel. -/
theorem workerLoop_intMax_none (filter : Int → Bool) :
    ∀ (fuel : Nat) (i : Int) (acc : List Int),
      Item37.intMin ≤ i → i ≤ Item37.intMax →
      Item37.workerLoop filter Item37.intMax fuel i acc = none := by
  intro fuel
  induction fuel with
  | zero => intro i acc _ _; rfl
  | succ n ih =>
      intro i acc hlo hhi
      rw [Item37.workerLoop, if_pos hhi]
      by_cases heq : i = Item37.intMax
      · subst heq
        have h1 : Item37.incInt Item37.intMax = Item37.intMin := by
          simp [Item37.incInt]
        refine ih _ _ ?_ ?_
        · rw [h1]
        · rw [h1]; norm_num [Item37.intMin, Item37.intMax]
      · have h1 : Item37.incInt i = i + 1 := by simp [Item37.incInt, heq]
        refine ih _ _ ?_ ?_ <;> rw [h1] <;> omega

/-- Unfolding of seqFrom at a successor length. -/
theorem seqFrom_succ (i : Int) (n : Nat) :
    Item37.seqFrom i (n + 1) = i :: Item37.seqFrom (i + 1) n := by
  have h1 : ((fun k : Nat => i + (k : Int)) ∘ Nat.succ) =
      fun k : Nat => (i + 1) + (k : Int) := by
    funext k
    simp only [Function.comp, Nat.succ_eq_add_one]
    push_cast
    ring
  unfold Item37.seqFrom
  rw [List.range_succ_eq_map, List.map_cons, List.map_map, h1]
  norm_num

/-- Complete run of the worker loop when maxVal is below intMax: starting
at i with n iterations left, sufficient fuel yields the filtered suffix. -/
theorem workerLoop_run (filter : Int → Bool) (maxVal : Int)
    (hmax : maxVal < Item37.intMax) :
    ∀ (n : Nat) (i : Int) (acc : List Int), 0 ≤ i → i + n = maxVal + 1 →
      Item37.workerLoop filter maxVal (n + 1) i acc =
        some (acc ++ (Item37.seqFrom i n).filter filter) := by
  intro n
  induction n with
  | zero =>
      intro i acc _ hend
      have hgt : ¬ i ≤ maxVal := by omega
      rw [Item37.workerLoop, if_neg hgt]
      simp [Item37.seqFrom]
  | succ n ih =>
      intro i acc h0 hend
      have hle : i ≤ maxVal := by omega
      have hne : i ≠ Item37.intMax := by omega
      have hinc : Item37.incInt i = i + 1 := by simp [Item37.incInt, hne]
      rw [Item37.workerLoop, if_pos hle, hinc,
          ih (i + 1) (if filter i then acc ++ [i] else acc) (by omega) (by omega),
          seqFrom_succ, List.filter_cons]
      by_cases hf : filter i <;> simp [hf]

/-- Membership in the list 0..maxVal. -/
theorem mem_upTo (maxVal : Int) (h0 : 0 ≤ maxVal) (i : Int) :
    i ∈ Item37.upTo maxVal ↔ 0 ≤ i ∧ i ≤ maxVal := by
  unfold Item37.upTo
  rw [List.mem_map]
  constructor
  · rintro ⟨k, hk, rfl⟩
    rw [List.mem_range] at hk
    omega
  · intro hi
    exact ⟨i.toNat, List.mem_range.mpr (by omega), by omega⟩

/-- The list 0..maxVal is strictly increasing. -/
theorem upTo_sorted (maxVal : Int) :
    List.Sorted (· < ·) (Item37.upTo maxVal) := by
  unfold Item37.upTo
  apply List.Pairwise.map
  · intro a b hab
    exact_mod_cast hab
  · exact List.pairwise_lt_range _

/-- C3 counterexample: the claim fails at maxVal = intMax = 2^31 - 1, an
input with maxVal >= 0 at which the worker loop never exits (the condition
i <= maxVal holds for every 32-bit value), so doWork does not return at
all, let alone return true. -/
theorem c3_counterexample :
    0 ≤ Item37.intMax ∧
    ¬ Item37.doWorkTerminates (fun _ => true) Item37.intMax := by
  constructor
  · norm_num [Item37.intMax]
  · rintro ⟨fuel, r, hr⟩
    have hnone := workerLoop_intMax_none (fun _ => true) fuel 0 []
      (by norm_num [Item37.intMin]) (by norm_num [Item37.intMax])
    rw [Item37.doWork, hnone] at hr
    exact Option.noConfusion hr

/-- C3 amended: for every filter and every maxVal with 0 <= maxVal <
intMax, doWork returns true with the worker thread joined at the point of
return (and the ThreadRAII destructor then finding nothing to join), and
goodVals holds exactly the integers i in 0..maxVal with filter i true, in
increasing order. -/
theorem c3_doWork_correct (filter : Int → Bool) (maxVal : Int)
    (h0 : 0 ≤ maxVal) (hmax : maxVal < Item37.intMax) :
    ∃ r : Item37.DoWorkResult,
      Item37.doWork (maxVal.toNat + 2) filter maxVal = some r ∧
      r.returned = true ∧
      r.threadJoinableAtReturn = false ∧
      r.dtorOutcomeAfterReturn = none ∧
      r.goodVals = (Item37.upTo maxVal).filter filter ∧
      List.Sorted (· < ·) r.goodVals ∧
      ∀ i : Int, i ∈ r.goodVals ↔ 0 ≤ i ∧ i ≤ maxVal ∧ filter i = true := by
  have hseq : Item37.seqFrom 0 (maxVal.toNat + 1) = Item37.upTo maxVal := by
    simp [Item37.seqFrom, Item37.upTo]
  have hrun := workerLoop_run filter maxVal hmax (maxVal.toNat + 1) 0 []
    le_rfl (by omega)
  rw [hseq, List.nil_append] at hrun
  refine ⟨{ returned := true
            goodVals := (Item37.upTo maxVal).filter filter
            threadJoinableAtReturn := false
            dtorOutcomeAfterReturn := none }, ?_, rfl, rfl, rfl, rfl, ?_, ?_⟩
  · rw [Item37.doWork, hrun]
    simp [Item37.joinThread, Item37.get, Item37.mkThreadRAII, Item37.dtor]
  · exact List.Pairwise.filter _ (upTo_sorted maxVal)
  · intro i
    simp only [List.mem_filter, mem_upTo maxVal h0 i]
    tauto

/-- C3 witness: the amended doWork theorem evaluated at the even filter
and maxVal = 3. -/
theorem c3_witness :
    ∃ r : Item37.DoWorkResult,
      Item37.doWork ((3 : Int).toNat + 2) (fun i => decide (i % 2 = 0)) 3 = some r ∧
      r.returned = true ∧
      r.threadJoinableAtReturn = false ∧
      r.dtorOutcomeAfterReturn = none ∧
      r.goodVals = (Item37.upTo 3).filter (fun i => decide (i % 2 = 0)) ∧
      List.Sorted (· < ·) r.goodVals ∧
      ∀ i : Int, i ∈ r.goodVals ↔ 0 ≤ i ∧ i ≤ 3 ∧ decide (i % 2 = 0) = true :=
  c3_doWork_correct (fun i => decide (i % 2 = 0)) 3 (by norm_num)
    (by norm_num [Item37.intMax])

/-- C4: on every path through the ThreadRAII destructor the contained
std::thread is unjoinable when the std::thread member destructor runs, so
ThreadRAII destruction never reaches std::terminate; and when the thread is
joinable at destruction, the destructor joins for DtorAction::join and
detaches otherwise. -/
theorem c4_threadraii_dtor :
    (∀ r : Item37.ThreadRAII,
        (Item37.dtor r).1.joinable = false ∧
        Item37.raiiDtorTerminates r = false) ∧
    (∀ r : Item37.ThreadRAII, r.t.joinable = true →
        (Item37.dtor r).2 = some (Item37.actionOutcome r.action)) := by
  constructor
  · rintro ⟨a, ⟨j⟩⟩
    cases a <;> cases j <;>
      simp [Item37.dtor, Item37.raiiDtorTerminates, Item37.threadDtorTerminates]
  · rintro ⟨a, ⟨j⟩⟩ hj
    cases a <;> cases j <;>
      simp_all [Item37.dtor, Item37.actionOutcome]

/-- C4 witness: the destructor theorem evaluated on a joinable thread with
action DtorAction::join. -/
theorem c4_witness :
    ((Item37.dtor { action := Item37.DtorAction.join,
                    t := { joinable := true } }).1.joinable = false ∧
      Item37.raiiDtorTerminates { action := Item37.DtorAction.join,
                                  t := { joinable := true } } = false) ∧
    (Item37.dtor { action := Item37.DtorAction.join,
                   t := { joinable := true } }).2 =
      some (Item37.actionOutcome Item37.DtorAction.join) :=
  ⟨c4_threadraii_dtor.1 { action := Item37.DtorAction.join,
                          t := { joinable := true } },
   c4_threadraii_dtor.2 { action := Item37.DtorAction.join,
                          t := { joinable := true } } rfl⟩

/-- C5: the ThreadRAII copies transcribed from item37.cxx, item39.cxx and
item40.cxx are behaviourally equal: under the field-wise translations,
construction, destruction, get, move construction and move assignment all
commute, so the three verbatim copies denote the same behaviour. -/
theorem c5_threadraii_copies_equal :
    (∀ (t : Item37.Thread) (a : Item37.DtorAction),
        raiiTo39 (Item37.mkThreadRAII t a) =
          Item39.mkThreadRAII (thrTo39 t) (actTo39 a) ∧
        raiiTo40 (Item37.mkThreadRAII t a) =
          Item40.mkThreadRAII (thrTo40 t) (actTo40 a)) ∧
    (∀ r : Item37.ThreadRAII,
        (Item39.dtor (raiiTo39 r)).1 = thrTo39 (Item37.dtor r).1 ∧
        (Item39.dtor (raiiTo39 r)).2 = ((Item37.dtor r).2).map outTo39 ∧
        (Item40.dtor (raiiTo40 r)).1 = thrTo40 (Item37.dtor r).1 ∧
        (Item40.dtor (raiiTo40 r)).2 = ((Item37.dtor r).2).map outTo40 ∧
        Item39.get (raiiTo39 r) = thrTo39 (Item37.get r) ∧
        Item40.get (raiiTo40 r) = thrTo40 (Item37.get r) ∧
        Item39.moveCtor (raiiTo39 r) =
          (raiiTo39 (Item37.moveCtor r).1, raiiTo39 (Item37.moveCtor r).2) ∧
        Item40.moveCtor (raiiTo40 r) =
          (raiiTo40 (Item37.moveCtor r).1, raiiTo40 (Item37.moveCtor r).2)) ∧
    (∀ d s : Item37.ThreadRAII,
        Item39.moveAssign (raiiTo39 d) (raiiTo39 s) =
          (Item37.moveAssign d s).map (fun p => (raiiTo39 p.1, raiiTo39 p.2)) ∧
        Item40.moveAssign (raiiTo40 d) (raiiTo40 s) =
          (Item37.moveAssign d s).map (fun p => (raiiTo40 p.1, raiiTo40 p.2))) := by
  refine ⟨?_, ?_, ?_⟩
  · rintro ⟨j⟩ a
    cases a <;> cases j <;>
      simp [raiiTo39, raiiTo40, thrTo39, thrTo40, actTo39, actTo40,
            Item37.mkThreadRAII, Item39.mkThreadRAII, Item40.mkThreadRAII]
  · rintro ⟨a, ⟨j⟩⟩
    cases a <;> cases j <;>
      simp [raiiTo39, raiiTo40, thrTo39, thrTo40, actTo39, actTo40,
            outTo39, outTo40, Item37.dtor, Item39.dtor, Item40.dtor,
            Item37.get, Item39.get, Item40.get,
            Item37.moveCtor, Item39.moveCtor, Item40.moveCtor]
  · rintro ⟨a, ⟨j⟩⟩ ⟨a2, ⟨j2⟩⟩
    cases a <;> cases j <;> cases a2 <;> cases j2 <;>
      simp [raiiTo39, raiiTo40, thrTo39, thrTo40, actTo39, actTo40,
            Item37.moveAssign, Item39.moveAssign, Item40.moveAssign]

/-- C6 counterexample: item18.cxx is one of the 32 example files and its
main reaches no output statement at all, so it is not true that every one
of the 32 files prints diagnostic output. -/
theorem c6_counterexample :
    Repo.item18cxx ∈ Repo.allFiles ∧
    Repo.item18cxx.name = "item18.cxx" ∧
    Repo.item18cxx.mainEffects = [] := by
  refine ⟨?_, rfl, rfl⟩
  simp [Repo.allFiles]

/-- C6 amended: of the 32 example files, the fourteen files listed in
printingNames write diagnostic output to the console when their main runs,
and the other eighteen mains write nothing to standard output. -/
theorem c6_printing_files :
    Repo.allFiles.length = 32 ∧
    (∀ f ∈ Repo.allFiles, f.name ∈ Repo.printingNames → f.mainEffects ≠ []) ∧
    (∀ f ∈ Repo.allFiles, f.name ∉ Repo.printingNames → f.mainEffects = []) := by
  refine ⟨rfl, ?_, ?_⟩ <;> decide

/-- C6 witness: the amended theorem evaluated at item1.cxx (which prints)
and at item18.cxx (which does not). -/
theorem c6_witness :
    Repo.item1cxx.mainEffects ≠ [] ∧ Repo.item18cxx.mainEffects = [] :=
  ⟨c6_printing_files.2.1 Repo.item1cxx (by decide) (by decide),
   c6_printing_files.2.2 Repo.item18cxx (by decide) (by decide)⟩

/-- C7 counterexample: item38.cxx is not among the source files of the
repository (while for instance item37.cxx is), so it is not true that each
of Items 35 through 40 is present as a source file. -/
theorem c7_counterexample :
    "item38.cxx" ∉ Repo.repoFilenames ∧ "item37.cxx" ∈ Repo.repoFilenames := by
  decide

/-- C7 amended: Items 35, 36, 37, 39 and 40 are present as source files;
Item 38 exists only as the namespace item38 repeated inside item39.cxx and
item40.cxx; and together those files use std::thread, std::async,
condition variables and atomics. -/
theorem c7_concurrency_items :
    (∀ n ∈ ["item35.cxx", "item36.cxx", "item37.cxx", "item39.cxx", "item40.cxx"],
        n ∈ Repo.repoFilenames) ∧
    "item38.cxx" ∉ Repo.repoFilenames ∧
    "item38" ∈ Repo.item39Info.namespaces ∧
    "item38" ∈ Repo.item40Info.namespaces ∧
    (∃ f ∈ Repo.concurrencyFiles, f.usesStdThread = true) ∧
    (∃ f ∈ Repo.concurrencyFiles, f.usesStdAsync = true) ∧
    (∃ f ∈ Repo.concurrencyFiles, f.usesCondVar = true) ∧
    (∃ f ∈ Repo.concurrencyFiles, f.usesStdAtomic = true) := by
  decide

/-- C7 witness: the amended theorem evaluated at item35.cxx. -/
theorem c7_witness : "item35.cxx" ∈ Repo.repoFilenames :=
  c7_concurrency_items.1 "item35.cxx" (by decide)

/-- C8: every one of the 32 example files defines a main entry point, and
every externally observable effect reachable from any of those mains is a
console write: no file or network operation and no persisted state. -/
theorem c8_console_only :
    ∀ f ∈ Repo.allFiles, f.definesMain = true ∧
      ∀ e ∈ f.mainEffects, e.isConsoleWrite = true := by
  decide

/-- C8 witness: the console-only theorem evaluated at item20.cxx. -/
theorem c8_witness :
    Repo.item20cxx.definesMain = true ∧
    ∀ e ∈ Repo.item20cxx.mainEffects, e.isConsoleWrite = true :=
  c8_console_only Repo.item20cxx (by decide)

/-- The polling loop of item36's main observes ready within the fuel bound
once the future of an asynchronously launched task becomes ready. -/
theorem pollLoop_ready (n : Nat) :
    ∀ (fuel calls : Nat), n ≤ calls + 1 + fuel →
      ∃ k, Item36.pollLoop (Item36.LaunchOutcome.asyncRun n) (fuel + 1) calls
        = some k := by
  intro fuel
  induction fuel with
  | zero =>
      intro calls h
      refine ⟨calls + 1, ?_⟩
      have hw : Item36.waitFor (Item36.LaunchOutcome.asyncRun n) (calls + 1)
          = Item36.FutureStatus.ready := by
        simp only [Item36.waitFor]
        rw [if_pos (by omega)]
      simp only [Item36.pollLoop, hw]
  | succ m ih =>
      intro calls h
      by_cases hc : n ≤ calls + 1
      · refine ⟨calls + 1, ?_⟩
        have hw : Item36.waitFor (Item36.LaunchOutcome.asyncRun n) (calls + 1)
            = Item36.FutureStatus.ready := by
          simp only [Item36.waitFor]
          rw [if_pos hc]
        simp only [Item36.pollLoop, hw]
      · obtain ⟨k, hk⟩ := ih (calls + 1) (by omega)
        refine ⟨k, ?_⟩
        have hw : Item36.waitFor (Item36.LaunchOutcome.asyncRun n) (calls + 1)
            = Item36.FutureStatus.timeout := by
          simp only [Item36.waitFor]
          rw [if_neg hc]
        simp only [Item36.pollLoop, hw]
        exact hk

/-- C9: under the default launch policy, whatever the scheduler chose for
std::async(f), the main of item36 terminates: when the initial
wait_for(0s) reports deferred the polling loop is skipped entirely, and
otherwise the loop polls until the future is ready; main never polls
forever on a deferred task. -/
theorem c9_item36_default_launch :
    ∀ o : Item36.LaunchOutcome,
      ∃ r : Item36.MainRun,
        Item36.mainItem36 o (Item36.fuelFor o) = some r ∧
        r.terminated = true ∧
        (o = Item36.LaunchOutcome.deferredRun →
            r.tookDeferredBranch = true ∧ r.polls = 0) ∧
        (∀ n : Nat, o = Item36.LaunchOutcome.asyncRun n →
            r.tookDeferredBranch = false) := by
  intro o
  cases o with
  | deferredRun =>
      refine ⟨{ tookDeferredBranch := true, polls := 0, terminated := true },
        rfl, rfl, fun _ => ⟨rfl, rfl⟩, fun n h => Item36.LaunchOutcome.noConfusion h⟩
  | asyncRun n =>
      obtain ⟨k, hk⟩ := pollLoop_ready n n 0 (by omega)
      refine ⟨{ tookDeferredBranch := false, polls := k, terminated := true },
        ?_, rfl, fun h => Item36.LaunchOutcome.noConfusion h, fun m h => rfl⟩
      have hne : ¬ Item36.waitFor (Item36.LaunchOutcome.asyncRun n) 0
          = Item36.FutureStatus.deferred := by
        by_cases h0 : n ≤ 0 <;> simp [Item36.waitFor, h0]
      have hf : Item36.fuelFor (Item36.LaunchOutcome.asyncRun n) = n + 1 := rfl
      rw [Item36.mainItem36, if_neg hne, hf, hk]

/-- C9 witness: the launch-policy theorem evaluated at the deferred
outcome. -/
theorem c9_witness :
    ∃ r : Item36.MainRun,
      Item36.mainItem36 Item36.LaunchOutcome.deferredRun
          (Item36.fuelFor Item36.LaunchOutcome.deferredRun) = some r ∧
      r.terminated = true ∧
      (Item36.LaunchOutcome.deferredRun = Item36.LaunchOutcome.deferredRun →
          r.tookDeferredBranch = true ∧ r.polls = 0) ∧
      (∀ n : Nat, Item36.LaunchOutcome.deferredRun = Item36.LaunchOutcome.asyncRun n →
          r.tookDeferredBranch = false) :=
  c9_item36_default_launch Item36.LaunchOutcome.deferredRun

end MCpp
